import Mathlib

/-!
Verification development for the FVH-3T trajectory core
(fvh3t/core/trajectory_layer.py and fvh3t/core/trajectory.py).

The ingestion pipeline of TrajectoryLayer is embedded shallowly:
a vector layer is a validity flag, a geometry type, a schema and a list of
point records; numeric attribute values ("integer" or "double" fields) are
modelled as rationals; exceptions are modelled with Except. The two
construction calls of the create_trajectories loop target stale classes in
fvh3t/core/trajectory.py whose arities do not match (a five-argument call to
the two-field TrajectoryNode NamedTuple, a two-argument call to the
one-parameter Trajectory), so both calls raise TypeError; the embedding
models these calls as failing steps carrying the parameter and argument
counts.
-/

namespace FVH3T

/-- Temporal units: the subset of QgsUnitTypes.TemporalUnit used by
trajectory_layer.py, namely the default TemporalUnknownUnit and the two units
assigned by the unit inference (TemporalSeconds, TemporalMilliseconds). -/
inductive TemporalUnit where
  | unknown
  | seconds
  | milliseconds
deriving DecidableEq, Repr

/-- Errors raised by the ingestion code: every failing check in
TrajectoryLayer.is_valid raises InvalidLayerException (fvh3t/core/exceptions.py)
carrying a message; math.log10 applied to a non-positive number inside
digits_in_timestamp_int raises ValueError (a math domain error); and a Python
call whose positional argument count does not match the parameter count of
the callee raises TypeError, modelled with the two counts. -/
inductive FvhError where
  | invalidLayer (msg : String)
  | mathDomainError
  | typeError (params args : Nat)
deriving DecidableEq, Repr

/-- One point feature of the input layer: a 2D point geometry and numeric
attributes looked up by field name. The resolve-name-to-index step of the
source (fields().indexOf) composed with the read by index (feature[idx]) is
modelled as a direct lookup by name. The identifier, timestamp, width, length
and height attributes read by the pipeline are numeric ("integer" or
"double" fields), modelled as rationals. -/
structure Record where
  x : ℚ
  y : ℚ
  attrs : String → ℚ

/-- Geometry types of QgsWkbTypes.GeometryType relevant to validation. -/
inductive GeometryType where
  | point
  | line
  | polygon
  | unknownGeometry
deriving DecidableEq, Repr

/-- The input QgsVectorLayer as seen by TrajectoryLayer: its validity flag,
geometry type, schema as (field name, display type string) pairs, and its
features. Feature ids of a memory layer start at 1, so getFeature(1) returns
the first feature in the list. -/
structure Layer where
  isLayerValid : Bool
  geometryType : GeometryType
  fields : List (String × String)
  records : List Record

/-- fields().indexFromName composed with fields().field(id): the first schema
entry carrying the given name, or none when indexFromName returns -1. -/
def findField (L : Layer) (name : String) : Option (String × String) :=
  L.fields.find? (fun f => f.1 == name)

/-- TrajectoryLayer.is_field_valid: the field exists and, when the
accepted-type list is non-empty, its display type is one of the accepted
types; an empty list accepts every type. -/
def is_field_valid (L : Layer) (field_name : String) (accepted_types : List String) : Bool :=
  match findField L field_name with
  | none => false
  | some f => if accepted_types.isEmpty then true else accepted_types.contains f.2

/-- TrajectoryLayer.is_valid: runs the checks in source order, raising
InvalidLayerException with the corresponding message at the first failure,
and returning normally otherwise. -/
def is_valid (L : Layer)
    (id_field timestamp_field width_field length_field height_field : String) :
    Except FvhError Unit :=
  if !L.isLayerValid then .error (.invalidLayer "Layer is not valid.")
  else if !(L.geometryType == GeometryType.point) then
    .error (.invalidLayer "Layer is not a point layer.")
  else if L.records.isEmpty then .error (.invalidLayer "Layer has no features.")
  else if !(is_field_valid L id_field []) then
    .error (.invalidLayer "Id field either not found or of incorrect type.")
  else if !(is_field_valid L timestamp_field ["integer", "double"]) then
    .error (.invalidLayer "Timestamp field either not found or of incorrect type.")
  else if !(is_field_valid L width_field ["integer", "double"]) then
    .error (.invalidLayer "Width field either not found or of incorrect type.")
  else if !(is_field_valid L length_field ["integer", "double"]) then
    .error (.invalidLayer "Length field either not found or of incorrect type.")
  else if !(is_field_valid L height_field ["integer", "double"]) then
    .error (.invalidLayer "Height field either not found or of incorrect type.")
  else .ok ()

/-- Python int() applied to a numeric value: truncation toward zero. -/
def pyInt (q : ℚ) : Int := if 0 ≤ q then ⌊q⌋ else ⌈q⌉

/-- digits_in_timestamp_int from trajectory_layer.py, int(log10(num)) + 1.
math.log10 raises a math domain error when its argument is not positive; for
num >= 1 the truncation int(log10(num)) is the floor of the base-10 logarithm,
i.e. Nat.log 10. -/
def digits_in_timestamp_int (num : Int) : Except FvhError Int :=
  if num ≤ 0 then .error .mathDomainError
  else .ok ((Nat.log 10 num.toNat : Int) + 1)

/-- The unit inference of TrajectoryLayer.__init__ (trajectory_layer.py lines
68-80), run when the supplied unit is the unknown default: read the timestamp
attribute of the first feature (getFeature(1)), truncate it with int(), and
classify the unit as milliseconds when digits_in_timestamp_int yields at
least 13 (UNIX_TIMESTAMP_UNIT_THRESHOLD) and as seconds otherwise. The branch
for a missing first feature is unreachable after validation, which requires
features. -/
def infer_timestamp_unit (L : Layer) (timestamp_field : String) :
    Except FvhError TemporalUnit :=
  match L.records.head? with
  | none => .error (.invalidLayer "Layer has no features.")
  | some f =>
    match digits_in_timestamp_int (pyInt (f.attrs timestamp_field)) with
    | .error e => .error e
    | .ok d => .ok (if 13 ≤ d then TemporalUnit.milliseconds else TemporalUnit.seconds)

/-- The five values the create_trajectories loop passes to the TrajectoryNode
call (trajectory_layer.py lines 141-153): the point geometry of the feature,
the unit-normalised timestamp (datetime.fromtimestamp with tz=utc is modelled
by the number of seconds since the epoch that it represents), and the width,
length and height attributes taken verbatim. The TrajectoryNode class as
defined in fvh3t/core/trajectory.py cannot store them (see the arity
definitions below). -/
structure TrajectoryNodeData where
  point : ℚ × ℚ
  timestamp : ℚ
  width : ℚ
  length : ℚ
  height : ℚ
deriving DecidableEq, Repr

/-- The data computed for one feature in the create_trajectories loop: the raw
timestamp attribute is divided by 1000 when the unit of the layer is
milliseconds and left unchanged otherwise. -/
def mkNode (u : TemporalUnit)
    (timestamp_field width_field length_field height_field : String)
    (r : Record) : TrajectoryNodeData :=
  { point := (r.x, r.y)
    timestamp :=
      if u == TemporalUnit.milliseconds then r.attrs timestamp_field / 1000
      else r.attrs timestamp_field
    width := r.attrs width_field
    length := r.attrs length_field
    height := r.attrs height_field }

/-- Trajectory (fvh3t/core/trajectory.py): an ordered tuple of nodes. The
class as defined stores only the node tuple; its __init__ takes no layer
argument (see the call-arity definitions below). -/
structure Trajectory where
  nodes : List TrajectoryNodeData
deriving DecidableEq, Repr

/-- Trajectory.as_geometry: QgsGeometry.fromPolylineXY applied to the node
points in stored order; a polyline geometry is modelled by its vertex list. -/
def as_geometry (T : Trajectory) : List (ℚ × ℚ) :=
  T.nodes.map (fun n => n.point)

/-- Comparison by the timestamp attribute, the key of the order-by clause. -/
def tsLe (timestamp_field : String) (a b : Record) : Prop :=
  a.attrs timestamp_field ≤ b.attrs timestamp_field

instance (timestamp_field : String) : DecidableRel (tsLe timestamp_field) :=
  fun a b => inferInstanceAs (Decidable (a.attrs timestamp_field ≤ b.attrs timestamp_field))

/-- The order-by request of trajectory_layer.py lines 132-137: the provider
returns the selected features sorted by the timestamp field ascending; per the
specification the sort preserves the input order of equal keys, modelled by a
stable insertion sort. -/
def sortByTimestamp (timestamp_field : String) (rs : List Record) : List Record :=
  List.insertionSort (tsLe timestamp_field) rs

/-- The feature request with filter expression id_field = identifier built in
the create_trajectories loop: numeric equality on the identifier attribute,
keeping layer order. -/
def selectById (L : Layer) (id_field : String) (i : ℚ) : List Record :=
  L.records.filter (fun r => decide (r.attrs id_field = i))

/-- layer.uniqueValues(id_field_idx): the distinct identifier values present
in the identifier field; the iteration order of the Python set is unspecified
and modelled by first-occurrence order. -/
def uniqueIds (L : Layer) (id_field : String) : List ℚ :=
  (L.records.map (fun r => r.attrs id_field)).dedup

/-- Number of fields of the TrajectoryNode NamedTuple as defined in
fvh3t/core/trajectory.py (point and timestamp). -/
def trajectoryNodeFieldCount : Nat := 2

/-- Number of positional arguments passed to TrajectoryNode by
TrajectoryLayer.create_trajectories at trajectory_layer.py lines 151-153
(point, datetime, width, length, height). -/
def nodeCallArgCount : Nat := 5

/-- Number of parameters besides self of Trajectory.__init__ as defined in
fvh3t/core/trajectory.py line 31 (nodes). -/
def trajectoryInitParamCount : Nat := 1

/-- Number of positional arguments passed to Trajectory by
TrajectoryLayer.create_trajectories at trajectory_layer.py line 155
(tuple(nodes) and self). -/
def trajectoryCallArgCount : Nat := 2

/-- A Python call of a callable with only fixed positional parameters and no
defaults succeeds exactly when the argument count equals the parameter count;
otherwise it raises TypeError. NamedTuple construction follows the same rule
with the declared fields as parameters. -/
def pythonCallOk (params args : Nat) : Bool := params == args

/-- The TrajectoryNode construction attempted for one feature at
trajectory_layer.py lines 151-153: five positional arguments against the
two-field NamedTuple of fvh3t/core/trajectory.py, so the call raises
TypeError; were the arities to match, the node would carry the computed
data. -/
def buildNode (u : TemporalUnit)
    (timestamp_field width_field length_field height_field : String)
    (r : Record) : Except FvhError TrajectoryNodeData :=
  if pythonCallOk trajectoryNodeFieldCount nodeCallArgCount then
    .ok (mkNode u timestamp_field width_field length_field height_field r)
  else .error (.typeError trajectoryNodeFieldCount nodeCallArgCount)

/-- The Trajectory construction attempted at trajectory_layer.py line 155:
two positional arguments (the node tuple and the layer) against the
one-parameter __init__ of fvh3t/core/trajectory.py, so the call raises
TypeError; were the arities to match, the trajectory would hold the nodes
(and no layer reference, since the class stores none). -/
def buildTrajectory (nodes : List TrajectoryNodeData) : Except FvhError Trajectory :=
  if pythonCallOk trajectoryInitParamCount trajectoryCallArgCount then
    .ok { nodes := nodes }
  else .error (.typeError trajectoryInitParamCount trajectoryCallArgCount)

/-- The body of the create_trajectories loop for one identifier: select the
features with that identifier, sort them by timestamp, construct one node per
feature (the first construction raises TypeError), then construct the
trajectory unconditionally — the loop has no guard for an empty selection, so
with zero nodes it still reaches the Trajectory call (which also raises
TypeError). -/
def trajectoryFor (L : Layer)
    (id_field timestamp_field width_field length_field height_field : String)
    (u : TemporalUnit) (i : ℚ) : Except FvhError Trajectory := do
  let nodes ← (sortByTimestamp timestamp_field (selectById L id_field i)).mapM
    (buildNode u timestamp_field width_field length_field height_field)
  buildTrajectory nodes

/-- TrajectoryLayer.create_trajectories (trajectory_layer.py lines 117-157):
iterate the distinct identifier values, running the loop body for each; the
first exception raised in the loop propagates. Because both construction
calls in the body raise TypeError (stale classes in fvh3t/core/trajectory.py),
the function raises on every layer that has at least one identifier and never
returns a trajectory collection. -/
def create_trajectories (L : Layer)
    (id_field timestamp_field width_field length_field height_field : String)
    (u : TemporalUnit) : Except FvhError (List Trajectory) :=
  (uniqueIds L id_field).mapM
    (trajectoryFor L id_field timestamp_field width_field length_field height_field u)

/-- The state of a completed TrajectoryLayer construction: the resolved
timestamp unit and the produced trajectory collection. -/
structure TrajectoryLayerState where
  timestamp_units : TemporalUnit
  trajectories : List Trajectory
deriving Repr

/-- TrajectoryLayer.__init__ (trajectory_layer.py lines 45-83): validate the
layer (raising InvalidLayerException on the first failing check), then, when
the supplied unit is the unknown default, infer the unit from the first
feature (which may raise the math domain error of log10), then call
create_trajectories with the resolved unit (line 83). The completed state is
returned only if that call returns, which it never does for a validated
layer. -/
def mkTrajectoryLayer (L : Layer)
    (id_field timestamp_field width_field length_field height_field : String)
    (timestamp_unit : TemporalUnit) :
    Except FvhError TrajectoryLayerState :=
  match is_valid L id_field timestamp_field width_field length_field height_field with
  | .error e => .error e
  | .ok _ =>
    match (match timestamp_unit with
           | TemporalUnit.unknown => infer_timestamp_unit L timestamp_field
           | u => .ok u) with
    | .error e => .error e
    | .ok u =>
      match create_trajectories L id_field timestamp_field width_field length_field
          height_field u with
      | .error e => .error e
      | .ok ts => .ok { timestamp_units := u, trajectories := ts }

/-- Attribute table of a sample feature: identifier, timestamp, width, length
and height values under the field names id, ts, w, l, h. -/
def sampleAttrs (i ts w l h : ℚ) : String → ℚ := fun f =>
  if f = "id" then i
  else if f = "ts" then ts
  else if f = "w" then w
  else if f = "l" then l
  else if f = "h" then h
  else 0

/-- Schema shared by the sample layers. -/
def sampleFields : List (String × String) :=
  [("id", "integer"), ("ts", "integer"), ("w", "double"),
   ("l", "double"), ("h", "double")]

def rec1 : Record := { x := 0, y := 0, attrs := sampleAttrs 1 1700000000 2 4 (3/2) }

def rec2 : Record := { x := 1, y := 0, attrs := sampleAttrs 1 1700000001 2 4 (3/2) }

def rec3 : Record := { x := 5, y := 5, attrs := sampleAttrs 2 1700000000 1 1 1 }

/-- A valid sample layer with two identifiers and seconds-scale timestamps. -/
def sampleLayer : Layer :=
  { isLayerValid := true, geometryType := .point, fields := sampleFields,
    records := [rec1, rec2, rec3] }

def recMs : Record := { x := 0, y := 0, attrs := sampleAttrs 7 1700000000000 2 4 (3/2) }

/-- A valid sample layer whose timestamps are at millisecond scale. -/
def msLayer : Layer :=
  { isLayerValid := true, geometryType := .point, fields := sampleFields,
    records := [recMs] }

/-- A layer failing validation: its geometry type is not point. -/
def badGeometryLayer : Layer :=
  { isLayerValid := true, geometryType := .line, fields := sampleFields,
    records := [rec1] }

def recNeg : Record := { x := 0, y := 0, attrs := sampleAttrs 1 (-5) 2 4 (3/2) }

/-- A valid layer whose first timestamp is negative, so that unit inference
hits the math domain error of log10. -/
def negTsLayer : Layer :=
  { isLayerValid := true, geometryType := .point, fields := sampleFields,
    records := [recNeg] }

/-- Nodes at positions (0,0), (1,0), (1,1), the geometry round-trip example of
the specification. -/
def exampleNodes : List TrajectoryNodeData :=
  [{ point := (0, 0), timestamp := 0, width := 0, length := 0, height := 0 },
   { point := (1, 0), timestamp := 1, width := 0, length := 0, height := 0 },
   { point := (1, 1), timestamp := 2, width := 0, length := 0, height := 0 }]

/-!
Helper lemmas. None of them is the theorem of a claim; they are shared by the
claim proofs below.
-/

theorem is_valid_ok_implies (L : Layer)
    (id_field timestamp_field width_field length_field height_field : String)
    (h : is_valid L id_field timestamp_field width_field length_field height_field = .ok ()) :
    L.isLayerValid = true ∧ L.geometryType = GeometryType.point ∧ L.records ≠ [] ∧
      is_field_valid L id_field [] = true ∧
      is_field_valid L timestamp_field ["integer", "double"] = true ∧
      is_field_valid L width_field ["integer", "double"] = true ∧
      is_field_valid L length_field ["integer", "double"] = true ∧
      is_field_valid L height_field ["integer", "double"] = true := by
  unfold is_valid at h
  split_ifs at h with h1 h2 h3 h4 h5 h6 h7 h8
  simp only [Bool.not_eq_true, Bool.not_eq_false'] at h1 h2 h4 h5 h6 h7 h8
  refine ⟨h1, by simpa using h2, by simpa [List.isEmpty_iff] using h3, h4, h5, h6, h7, h8⟩

theorem is_valid_shape (L : Layer)
    (id_field timestamp_field width_field length_field height_field : String) :
    (∃ msg, is_valid L id_field timestamp_field width_field length_field height_field =
      .error (.invalidLayer msg)) ∨
    is_valid L id_field timestamp_field width_field length_field height_field = .ok () := by
  unfold is_valid
  split_ifs <;> first
    | exact Or.inr rfl
    | exact Or.inl ⟨_, rfl⟩

theorem id_field_valid_iff (L : Layer) (name : String) :
    is_field_valid L name [] = true ↔ findField L name ≠ none := by
  unfold is_field_valid
  cases h : findField L name <;> simp

theorem mkTrajectoryLayer_of_invalid (L : Layer)
    (id_field timestamp_field width_field length_field height_field : String)
    (u : TemporalUnit) (e : FvhError)
    (hv : is_valid L id_field timestamp_field width_field length_field height_field = .error e) :
    mkTrajectoryLayer L id_field timestamp_field width_field length_field height_field u =
      .error e := by
  unfold mkTrajectoryLayer
  rw [hv]

theorem infer_timestamp_unit_ok (L : Layer) (timestamp_field : String)
    (f : Record) (d : Int)
    (hh : L.records.head? = some f)
    (hd : digits_in_timestamp_int (pyInt (f.attrs timestamp_field)) = .ok d) :
    infer_timestamp_unit L timestamp_field =
      .ok (if 13 ≤ d then TemporalUnit.milliseconds else TemporalUnit.seconds) := by
  unfold infer_timestamp_unit
  rw [hh]
  dsimp only
  rw [hd]

theorem infer_timestamp_unit_error (L : Layer) (timestamp_field : String)
    (f : Record) (e : FvhError)
    (hh : L.records.head? = some f)
    (hd : digits_in_timestamp_int (pyInt (f.attrs timestamp_field)) = .error e) :
    infer_timestamp_unit L timestamp_field = .error e := by
  unfold infer_timestamp_unit
  rw [hh]
  dsimp only
  rw [hd]

theorem mkTrajectoryLayer_unknown_domain (L : Layer)
    (id_field timestamp_field width_field length_field height_field : String)
    (e : FvhError)
    (hv : is_valid L id_field timestamp_field width_field length_field height_field = .ok ())
    (hi : infer_timestamp_unit L timestamp_field = .error e) :
    mkTrajectoryLayer L id_field timestamp_field width_field length_field height_field
      TemporalUnit.unknown = .error e := by
  unfold mkTrajectoryLayer
  rw [hv]
  dsimp only
  rw [hi]

theorem mkTrajectoryLayer_unknown_run (L : Layer)
    (id_field timestamp_field width_field length_field height_field : String)
    (u : TemporalUnit) (e : FvhError)
    (hv : is_valid L id_field timestamp_field width_field length_field height_field = .ok ())
    (hi : infer_timestamp_unit L timestamp_field = .ok u)
    (hc : create_trajectories L id_field timestamp_field width_field length_field
        height_field u = .error e) :
    mkTrajectoryLayer L id_field timestamp_field width_field length_field height_field
      TemporalUnit.unknown = .error e := by
  unfold mkTrajectoryLayer
  rw [hv]
  dsimp only
  rw [hi]
  dsimp only
  rw [hc]

theorem digits_pos (n : Int) (hn : 0 < n) :
    digits_in_timestamp_int n = .ok ((Nat.log 10 n.toNat : Int) + 1) := by
  unfold digits_in_timestamp_int
  rw [if_neg (not_le.mpr hn)]

theorem natLog10_1700000000 : Nat.log 10 1700000000 = 9 :=
  Nat.log_eq_of_pow_le_of_lt_pow (by norm_num) (by norm_num)

theorem natLog10_1700000000000 : Nat.log 10 1700000000000 = 12 :=
  Nat.log_eq_of_pow_le_of_lt_pow (by norm_num) (by norm_num)

/-!
Claim theorems and witnesses.
-/

/-- C1: the claim fails on the code: evaluated on a validated layer with two
distinct identifiers, create_trajectories raises TypeError at the first
TrajectoryNode construction (five positional arguments against the two-field
NamedTuple of fvh3t/core/trajectory.py) and returns no trajectory collection
at all, instead of one trajectory per distinct identifier. -/
theorem grouping_never_returns :
    uniqueIds sampleLayer "id" = [1, 2] ∧
    create_trajectories sampleLayer "id" "ts" "w" "l" "h" TemporalUnit.seconds =
      .error (FvhError.typeError trajectoryNodeFieldCount nodeCallArgCount) :=
  ⟨rfl, rfl⟩

/-- C2: the claim is never witnessed by the code: although the feature request
orders the selection by timestamp ascending, create_trajectories raises
TypeError before the first node exists, so no trajectory with an ordered node
sequence is ever produced; evaluated on the millisecond sample layer. -/
theorem ordering_never_observed :
    create_trajectories msLayer "id" "ts" "w" "l" "h" TemporalUnit.milliseconds =
      .error (FvhError.typeError trajectoryNodeFieldCount nodeCallArgCount) := rfl

/-- C3: when no explicit timestamp unit is supplied, the unit inference of
TrajectoryLayer.__init__ (lines 68-80, run before the trajectory construction
call) reads one representative raw timestamp, the attribute of the first
feature, and classifies the unit as milliseconds when its decimal digit count
is 13 or more and as seconds otherwise. -/
theorem unit_inference (L : Layer) (timestamp_field : String) (f : Record)
    (hh : L.records.head? = some f)
    (hpos : 0 < pyInt (f.attrs timestamp_field)) :
    infer_timestamp_unit L timestamp_field =
      .ok (if 13 ≤ (Nat.digits 10 (pyInt (f.attrs timestamp_field)).toNat).length
           then TemporalUnit.milliseconds else TemporalUnit.seconds) := by
  have hd := digits_pos _ hpos
  rw [infer_timestamp_unit_ok L timestamp_field f _ hh hd]
  have hlen : (Nat.digits 10 (pyInt (f.attrs timestamp_field)).toNat).length =
      Nat.log 10 (pyInt (f.attrs timestamp_field)).toNat + 1 :=
    Nat.digits_len 10 _ (by norm_num) (by omega)
  have hiff : (13 ≤ (Nat.log 10 (pyInt (f.attrs timestamp_field)).toNat : Int) + 1) ↔
      (13 ≤ (Nat.digits 10 (pyInt (f.attrs timestamp_field)).toNat).length) := by
    rw [hlen]; omega
  simp only [hiff]

/-- C4: the claim fails on the code: on the validated millisecond-scale layer
the unit is inferred as milliseconds, but construction then raises TypeError
at the first TrajectoryNode call, so no node timestamp — converted or not —
is ever stored. -/
theorem timestamp_never_stored :
    mkTrajectoryLayer msLayer "id" "ts" "w" "l" "h" TemporalUnit.unknown =
      .error (FvhError.typeError trajectoryNodeFieldCount nodeCallArgCount) := by
  have hd : digits_in_timestamp_int (pyInt (recMs.attrs "ts")) = .ok 13 := by
    rw [show pyInt (recMs.attrs "ts") = 1700000000000 from rfl,
      digits_pos 1700000000000 (by decide),
      show Int.toNat 1700000000000 = 1700000000000 from rfl, natLog10_1700000000000]
    norm_num
  have hi := infer_timestamp_unit_ok msLayer "ts" recMs 13 rfl hd
  rw [if_pos (by norm_num : (13:Int) ≤ 13)] at hi
  exact mkTrajectoryLayer_unknown_run msLayer "id" "ts" "w" "l" "h"
    TemporalUnit.milliseconds _ rfl hi rfl

/-- C5: a source that is not a point layer, or has zero records, or lacks the
identifier field, or whose timestamp, width, length or height field is absent
or not of numeric type, makes construction fail with an InvalidLayer error:
no state, hence no partial trajectory collection, is returned. -/
theorem validation_gating (L : Layer)
    (id_field timestamp_field width_field length_field height_field : String)
    (u : TemporalUnit)
    (h : L.geometryType ≠ GeometryType.point ∨ L.records = [] ∨
         findField L id_field = none ∨
         is_field_valid L timestamp_field ["integer", "double"] = false ∨
         is_field_valid L width_field ["integer", "double"] = false ∨
         is_field_valid L length_field ["integer", "double"] = false ∨
         is_field_valid L height_field ["integer", "double"] = false) :
    ∃ msg, mkTrajectoryLayer L id_field timestamp_field width_field length_field
        height_field u = .error (.invalidLayer msg) := by
  rcases is_valid_shape L id_field timestamp_field width_field length_field height_field with
    ⟨msg, he⟩ | hok
  · exact ⟨msg, mkTrajectoryLayer_of_invalid L id_field timestamp_field width_field
      length_field height_field u _ he⟩
  · exfalso
    obtain ⟨_, hpoint, hne, hid, hts, hw, hl, hh⟩ :=
      is_valid_ok_implies L id_field timestamp_field width_field length_field height_field hok
    rcases h with h | h | h | h | h | h | h
    · exact h hpoint
    · exact hne h
    · exact (id_field_valid_iff L id_field).mp hid h
    · rw [h] at hts; cases hts
    · rw [h] at hw; cases hw
    · rw [h] at hl; cases hl
    · rw [h] at hh; cases hh

/-- C6: the claim fails on the code: the create_trajectories loop has no
guard for an empty selection — for an identifier with zero matching records
it still reaches the Trajectory construction call (which itself raises
TypeError from the two-against-one arity mismatch), so the defensive
identifier-dropping the claim describes does not exist, and no trajectory,
empty or otherwise, is ever created. -/
theorem no_guard_for_empty_selection :
    selectById sampleLayer "id" 99 = [] ∧
    trajectoryFor sampleLayer "id" "ts" "w" "l" "h" TemporalUnit.seconds 99 =
      .error (FvhError.typeError trajectoryInitParamCount trajectoryCallArgCount) :=
  ⟨rfl, rfl⟩

/-- C7: the TrajectoryNode class instantiated by create_trajectories declares
two fields (point, timestamp), while the call site passes five positional
arguments (point, datetime, width, length, height); the construction of every
ingestion node therefore raises TypeError, so no node carrying the three
dimension fields is ever built. -/
theorem node_construction_mismatch :
    pythonCallOk trajectoryNodeFieldCount nodeCallArgCount = false := rfl

/-- C8: Trajectory.__init__ as defined takes a single argument (the node
tuple) and stores no reference to a source layer, while create_trajectories
passes two arguments (the node tuple and the layer itself); the construction
therefore raises TypeError and no source association is recorded. -/
theorem trajectory_construction_mismatch :
    pythonCallOk trajectoryInitParamCount trajectoryCallArgCount = false := rfl

/-- C9: as_geometry is the polyline visiting each node position in stored
order, a pure function of the node sequence: its vertex at every index is the
point of the node at the same index, and on nodes at positions
(0,0), (1,0), (1,1) it yields exactly those vertices in that order. -/
theorem as_geometry_polyline :
    (∀ (T : Trajectory) (k : Nat),
        (as_geometry T).get? k = (T.nodes.get? k).map (fun n => n.point))
    ∧ as_geometry { nodes := exampleNodes } = [(0, 0), (1, 0), (1, 1)] := by
  constructor
  · intro T k
    simp [as_geometry]
  · rfl

/-- C10: digits_in_timestamp_int is defined only on positive inputs: on a
positive integer it returns the number of decimal digits, while a zero or
negative sample makes log10 raise a math domain error, and constructing a
layer with an unspecified timestamp unit and a non-positive first (truncated)
timestamp therefore fails with that arithmetic domain error instead of
classifying a unit. -/
theorem digit_helper_domain :
    (∀ n : Int, 0 < n →
        digits_in_timestamp_int n = .ok (((Nat.digits 10 n.toNat).length : Nat) : Int))
    ∧ (∀ n : Int, n ≤ 0 → digits_in_timestamp_int n = .error FvhError.mathDomainError)
    ∧ ∀ (L : Layer)
        (id_field timestamp_field width_field length_field height_field : String)
        (f : Record),
        is_valid L id_field timestamp_field width_field length_field height_field = .ok () →
        L.records.head? = some f →
        pyInt (f.attrs timestamp_field) ≤ 0 →
        mkTrajectoryLayer L id_field timestamp_field width_field length_field height_field
          TemporalUnit.unknown = .error FvhError.mathDomainError := by
  refine ⟨?_, ?_, ?_⟩
  · intro n hn
    rw [digits_pos n hn, Nat.digits_len 10 _ (by norm_num) (by omega)]
    push_cast
    rfl
  · intro n hn
    unfold digits_in_timestamp_int
    rw [if_pos hn]
  · intro L id_field timestamp_field width_field length_field height_field f hv hh hneg
    refine mkTrajectoryLayer_unknown_domain L id_field timestamp_field width_field
      length_field height_field _ hv ?_
    refine infer_timestamp_unit_error L timestamp_field f _ hh ?_
    unfold digits_in_timestamp_int
    rw [if_pos hneg]

/-- Witness for C3: on the sample layer the inferred unit is decided by the
digit count of the first raw timestamp. -/
theorem unit_inference_witness :
    infer_timestamp_unit sampleLayer "ts" =
      .ok (if 13 ≤ (Nat.digits 10 (pyInt (rec1.attrs "ts")).toNat).length
           then TemporalUnit.milliseconds else TemporalUnit.seconds) :=
  unit_inference sampleLayer "ts" rec1 rfl (by decide)

/-- Witness for C5: a non-point layer fails construction with an InvalidLayer
error. -/
theorem validation_gating_witness :
    ∃ msg, mkTrajectoryLayer badGeometryLayer "id" "ts" "w" "l" "h" TemporalUnit.seconds =
      .error (.invalidLayer msg) :=
  validation_gating badGeometryLayer "id" "ts" "w" "l" "h" TemporalUnit.seconds
    (Or.inl (by decide))

/-- Witness for C10: the digit helper on a 10-digit value, on zero, and the
layer with a negative first timestamp. -/
theorem digit_helper_domain_witness :
    digits_in_timestamp_int 1700000000 = .ok 10 ∧
    digits_in_timestamp_int 0 = .error FvhError.mathDomainError ∧
    mkTrajectoryLayer negTsLayer "id" "ts" "w" "l" "h" TemporalUnit.unknown =
      .error FvhError.mathDomainError := by
  refine ⟨?_, digit_helper_domain.2.1 0 le_rfl,
    digit_helper_domain.2.2 negTsLayer "id" "ts" "w" "l" "h" recNeg rfl rfl (by decide)⟩
  rw [digit_helper_domain.1 1700000000 (by decide)]
  rw [show Int.toNat 1700000000 = 1700000000 from rfl,
    Nat.digits_len 10 1700000000 (by norm_num) (by norm_num), natLog10_1700000000]
  norm_num

end FVH3T
